import Mathlib

/-!
Verification of `visualize_stability.py` (Q-Halo repository).

The script is a single pipeline: parse `raw_output.txt` into two parallel
integer lists (`parse_data`), fit a least-squares line (scipy `linregress`),
render a chart and print a stability verdict (`main`).

Embedding conventions:
* A file's content and each line are lists of characters (`List Char`);
  `pyLines` reproduces Python's line iteration, `pyStrip` reproduces
  `str.strip()`, `reMatch` embeds the regex `^\d+,\d+$`, `splitComma`
  embeds `str.split(',')`.
* Python ints are `Nat` (the regex admits only unsigned digit strings);
  floats are modelled as `ℚ` with exact arithmetic.
* A run of `main` is summarised by an `Outcome`: either the process exited
  (with its ordered console output, exit code, whether the chart file was
  written, and where the verdict label was placed on the chart), or it
  crashed with an uncaught exception after the listed output.
* `Option` models partiality: `none` from `parse_data` or `linregress`
  stands for an uncaught exception.
-/

/-- The characters stripped by Python's `str.strip()` (ASCII whitespace). -/
def isPySpace (c : Char) : Bool :=
  c = ' ' || c = '\t' || c = '\n' || c = '\r' || c = '\x0B' || c = '\x0C'

/-- Python `line.strip()`: drop leading and trailing whitespace. -/
def pyStrip (l : List Char) : List Char :=
  ((l.dropWhile isPySpace).reverse.dropWhile isPySpace).reverse

/-- The regex test `re.match(r'^\d+,\d+$', line)`: one or more digits, a
single comma, one or more digits, nothing else.  `\d+` is greedy and a
comma is not a digit, so `takeWhile`/`dropWhile` realise the match. -/
def reMatch (l : List Char) : Bool :=
  match l.dropWhile Char.isDigit with
  | ',' :: rest => !(l.takeWhile Char.isDigit).isEmpty && !rest.isEmpty && rest.all Char.isDigit
  | _ => false

/-- Python `line.split(',')`: chunks between commas, in order; always at
least one chunk. -/
def splitComma : List Char → List (List Char)
  | [] => [[]]
  | c :: cs =>
    if c = ',' then [] :: splitComma cs
    else (c :: (splitComma cs).headD []) :: (splitComma cs).tail

/-- Python `int(s)` on a string of decimal digits. -/
def pyInt (l : List Char) : Nat :=
  l.foldl (fun a c => a * 10 + (c.toNat - 48)) 0

/-- One iteration of the loop in `parse_data`: strip the line, test the
regex; on a match split on the comma and read `parts[0]`, `parts[1]`.
Outer `none` = an `IndexError` reading `parts[1]` (proved unreachable);
`some none` = the line was skipped; `some (some (x, y))` = a sample. -/
def processLine (l : List Char) : Option (Option (Nat × Nat)) :=
  let s := pyStrip l
  if reMatch s then
    match splitComma s with
    | a :: b :: _ => some (some (pyInt a, pyInt b))
    | _ => none
  else
    some none

/-- `parse_data`: fold `processLine` over the file's lines, appending each
sample's components to `steps` and `weights` in file order.  `none` = some
line raised; `some (steps, weights)` = the two parallel lists. -/
def parse_data : List (List Char) → Option (List Nat × List Nat)
  | [] => some ([], [])
  | l :: ls =>
    match processLine l with
    | none => none
    | some none => parse_data ls
    | some (some (x, y)) =>
      match parse_data ls with
      | none => none
      | some (s, w) => some (x :: s, y :: w)

/-- Accumulator-based splitting of a file's characters into Python lines. -/
def pyLinesAux : List Char → List Char → List (List Char)
  | acc, [] => if acc.isEmpty then [] else [acc.reverse]
  | acc, c :: cs =>
    if c = '\n' then (acc.reverse ++ ['\n']) :: pyLinesAux [] cs
    else pyLinesAux (c :: acc) cs

/-- Python's `for line in f`: lines keep their trailing newline; a final
fragment without a newline is still a line; an empty file has no lines. -/
def pyLines (content : List Char) : List (List Char) :=
  pyLinesAux [] content

/-- Python `max(l)` on a list of ints (`0` on `[]`, where Python raises;
`main` only evaluates it on non-empty lists, see the safety claims). -/
def pyMax : List Nat → Nat
  | [] => 0
  | x :: xs => xs.foldl max x

/-- Python `min(l)` on a list of ints (`0` on `[]`). -/
def pyMin : List Nat → Nat
  | [] => 0
  | x :: xs => xs.foldl min x

/-- Arithmetic mean of a list of rationals. -/
def mean (l : List ℚ) : ℚ := l.sum / (l.length : ℚ)

/-- Modelled from the spec: `scipy.stats.linregress` is an imported library
primitive, not part of src.  Per the spec it computes closed-form ordinary
least squares — slope = covariance(x,y)/variance(x), intercept =
mean(y) − slope·mean(x) — and is undefined (fails) with fewer than two
points or a zero-variance x sequence (division by zero in the slope
formula).  `none` models that failure; floats are modelled exactly as ℚ. -/
def linregress (xs ys : List Nat) : Option (ℚ × ℚ) :=
  let x : List ℚ := xs.map (fun a => (a : ℚ))
  let y : List ℚ := ys.map (fun a => (a : ℚ))
  let mx := mean x
  let my := mean y
  let ssxm := (x.map (fun a => (a - mx) ^ 2)).sum
  let ssxym := ((x.zip y).map (fun p => (p.1 - mx) * (p.2 - my))).sum
  if xs.length < 2 ∨ ssxm = 0 then none
  else some (ssxym / ssxm, my - ssxym / ssxm * mx)

/-- The qualitative stability classification. -/
inductive Verdict where
  | STABLE
  | GROWTH_DETECTED
deriving DecidableEq, Repr

/-- The hypothesis check of `main`: `STABLE` exactly when `|slope| < 0.01`. -/
def verdict (slope : ℚ) : Verdict :=
  if |slope| < 1 / 100 then Verdict.STABLE else Verdict.GROWTH_DETECTED

/-- One line printed to standard output by `main`, as an abstract event. -/
inductive OutMsg where
  | parsingStart
  | noData
  | foundPoints (n : Nat)
  | slopeMsg (m : ℚ)
  | interceptMsg (b : ℚ)
  | verdictStable
  | verdictGrowth
  | savedChart
deriving DecidableEq, Repr

/-- The literal text of each printed line.  Numeric renderings abstract
Python's float/int formatting (the digits, not the float spelling). -/
def OutMsg.text : OutMsg → String
  | .parsingStart => "Parsing data..."
  | .noData => "No CSV data found in raw_output.txt"
  | .foundPoints n => s!"Found {n} data points."
  | .slopeMsg m => s!"Slope: {m}"
  | .interceptMsg b => s!"Intercept: {b}"
  | .verdictStable => "CONCLUSION: STABLE RECURSION"
  | .verdictGrowth => "WARNING: ERROR GROWTH DETECTED"
  | .savedChart => "Saved chart to error_stability_proof.png"

/-- Observable result of one process run: normal exit (ordered console
output, exit code, whether `error_stability_proof.png` was written, and
the (x, y) position of the verdict label on the chart), or a crash by an
uncaught exception after the listed output. -/
inductive Outcome where
  | exited (output : List OutMsg) (code : Nat) (chartWritten : Bool)
      (labelPos : Option (ℚ × ℚ))
  | crashed (output : List OutMsg)
deriving DecidableEq, Repr

/-- `main()`: parse `raw_output.txt`, exit 1 with a message when no line
matched, otherwise regress, classify, place the verdict label at
`(len(steps)/2, max(weights) + 1)`, save the chart, and exit 0.  Print
order follows the source: parsing notice, count, slope, intercept,
verdict, saved-chart path.  Chart rendering is modelled only through the
label position and the chart-written flag (matplotlib is a library, not
part of src). -/
def pyMain (content : List Char) : Outcome :=
  match parse_data (pyLines content) with
  | none => .crashed [.parsingStart]
  | some (steps, weights) =>
    if steps.isEmpty then
      .exited [.parsingStart, .noData] 1 false none
    else
      match linregress steps weights with
      | none => .crashed [.parsingStart, .foundPoints steps.length]
      | some (m, b) =>
        .exited
          [.parsingStart, .foundPoints steps.length, .slopeMsg m, .interceptMsg b,
            (match verdict m with
             | .STABLE => .verdictStable
             | .GROWTH_DETECTED => .verdictGrowth),
            .savedChart]
          0 true (some ((steps.length : ℚ) / 2, (pyMax weights : ℚ) + 1))

/-- A line is retained by `parse_data` iff its stripped form matches the regex. -/
def isMatch (l : List Char) : Bool := reMatch (pyStrip l)

/-- The sample `parse_data` extracts from a matching line. -/
def pairOf (l : List Char) : Nat × Nat :=
  match splitComma (pyStrip l) with
  | a :: b :: _ => (pyInt a, pyInt b)
  | _ => (0, 0)

/-- Follows the spec's words (for comparison with the code): the x value
midway between the minimum and maximum step values. -/
def specMidpoint (steps : List Nat) : ℚ :=
  ((pyMin steps : ℚ) + (pyMax steps : ℚ)) / 2

/-! ### Helper lemmas -/

lemma digit_not_comma {c : Char} (h : c.isDigit = true) : c ≠ ',' := by
  rintro rfl
  exact absurd h (by decide)

lemma no_comma_of_all_digit {l : List Char} (h : l.all Char.isDigit = true) :
    ∀ c ∈ l, c ≠ ',' := by
  intro c hc
  exact digit_not_comma (List.all_eq_true.mp h c hc)

lemma splitComma_no_comma {l : List Char} (h : ∀ c ∈ l, c ≠ ',') :
    splitComma l = [l] := by
  induction l with
  | nil => rfl
  | cons c cs ih =>
    have hc : c ≠ ',' := h c (by simp)
    have hcs : splitComma cs = [cs] := ih fun d hd => h d (by simp [hd])
    simp [splitComma, hc, hcs]

lemma splitComma_append {a : List Char} (b : List Char) (h : ∀ c ∈ a, c ≠ ',') :
    splitComma (a ++ ',' :: b) = a :: splitComma b := by
  induction a with
  | nil => simp [splitComma]
  | cons c cs ih =>
    have hc : c ≠ ',' := h c (by simp)
    have ih2 : splitComma (cs ++ ',' :: b) = cs :: splitComma b :=
      ih fun d hd => h d (by simp [hd])
    simp [splitComma, hc, ih2]

/-- Totality of the conversion under the regex guard: a matching line splits
on the comma into exactly two non-empty digit-only parts. -/
lemma reMatch_split {s : List Char} (h : reMatch s = true) :
    ∃ a b, splitComma s = [a, b] ∧ a ≠ [] ∧ a.all Char.isDigit = true ∧
      b ≠ [] ∧ b.all Char.isDigit = true := by
  unfold reMatch at h
  split at h
  case h_2 => exact absurd h (by simp)
  case h_1 rest heq =>
    simp only [Bool.and_eq_true, Bool.not_eq_true', List.isEmpty_eq_false] at h
    obtain ⟨⟨h1, h2⟩, h3⟩ := h
    have hall : (s.takeWhile Char.isDigit).all Char.isDigit = true :=
      List.all_eq_true.mpr fun c hc => List.mem_takeWhile_imp hc
    refine ⟨s.takeWhile Char.isDigit, rest, ?_, h1, hall, h2, h3⟩
    have hs : s.takeWhile Char.isDigit ++ ',' :: rest = s := by
      rw [← heq]; exact List.takeWhile_append_dropWhile _ _
    calc splitComma s = splitComma (s.takeWhile Char.isDigit ++ ',' :: rest) := by
          rw [hs]
      _ = s.takeWhile Char.isDigit :: splitComma rest :=
          splitComma_append rest (no_comma_of_all_digit hall)
      _ = [s.takeWhile Char.isDigit, rest] := by
          rw [splitComma_no_comma (no_comma_of_all_digit h3)]

lemma processLine_eq (l : List Char) :
    processLine l = some (if isMatch l then some (pairOf l) else none) := by
  unfold processLine isMatch pairOf
  by_cases h : reMatch (pyStrip l) = true
  · obtain ⟨a, b, hsplit, -⟩ := reMatch_split h
    simp [h, hsplit]
  · simp [h]

/-- Characterisation of `parse_data`: it never raises, and returns exactly
the samples of the matching lines, in file order. -/
lemma parse_data_eq (lines : List (List Char)) :
    parse_data lines =
      some ((lines.filter isMatch).map fun l => (pairOf l).1,
            (lines.filter isMatch).map fun l => (pairOf l).2) := by
  induction lines with
  | nil => rfl
  | cons l ls ih =>
    by_cases h : isMatch l
    · cases hp : pairOf l with
      | mk x y => simp [parse_data, processLine_eq, h, hp, ih, List.filter_cons]
    · simp [parse_data, processLine_eq, h, ih, List.filter_cons]

lemma foldl_max_mem (xs : List Nat) (x : Nat) : xs.foldl max x ∈ x :: xs := by
  induction xs generalizing x with
  | nil => simp
  | cons c cs ih =>
    show List.foldl max (max x c) cs ∈ x :: c :: cs
    rcases List.mem_cons.mp (ih (max x c)) with h1 | h1
    · rw [h1]
      rcases max_choice x c with hm | hm
      · rw [hm]; exact List.mem_cons_self x _
      · rw [hm]; exact List.mem_cons_of_mem x (List.mem_cons_self c cs)
    · exact List.mem_cons_of_mem x (List.mem_cons_of_mem c h1)

lemma pyMax_mem {l : List Nat} (h : l ≠ []) : pyMax l ∈ l := by
  cases l with
  | nil => exact absurd rfl h
  | cons x xs => exact foldl_max_mem xs x

lemma linregress_short {xs ys : List Nat} (h : xs.length < 2) :
    linregress xs ys = none := by
  unfold linregress
  simp [h]

/-- Bridge lemma: the whole run of `main`, with the parsed series spelled
out by `parse_data_eq`. -/
lemma pyMain_eq (content : List Char) (S W : List Nat)
    (hS : S = ((pyLines content).filter isMatch).map fun l => (pairOf l).1)
    (hW : W = ((pyLines content).filter isMatch).map fun l => (pairOf l).2) :
    pyMain content =
      if S.isEmpty then Outcome.exited [.parsingStart, .noData] 1 false none
      else
        match linregress S W with
        | none => Outcome.crashed [.parsingStart, .foundPoints S.length]
        | some (m, b) =>
          Outcome.exited
            [.parsingStart, .foundPoints S.length, .slopeMsg m, .interceptMsg b,
              (match verdict m with
               | .STABLE => .verdictStable
               | .GROWTH_DETECTED => .verdictGrowth),
              .savedChart]
            0 true (some ((S.length : ℚ) / 2, (pyMax W : ℚ) + 1)) := by
  subst hS hW
  unfold pyMain
  rw [parse_data_eq]

/-! ### Concrete inputs used by several theorems -/

/-- The spec's end-to-end scenario B input file. -/
def scenarioB : List Char := "1,1\n2,2\n3,3\n4,4\n".data

/-- An input whose step values are not unit-spaced from the origin. -/
def cexC5 : List Char := "10,1\n20,1\n".data

/-- Three lines, of which the first and third match the pattern. -/
def mixedLines : List (List Char) := ["1,2".data, "x".data, "3,4".data]

/-! ### Concrete evaluations (rational arithmetic via norm_num) -/

lemma verdict_one : verdict 1 = Verdict.GROWTH_DETECTED := by
  rw [verdict, if_neg]
  rw [abs_one]
  norm_num

lemma verdict_zero : verdict 0 = Verdict.STABLE := by
  rw [verdict, if_pos]
  rw [abs_zero]
  norm_num

lemma linregress_1234 : linregress [1, 2, 3, 4] [1, 2, 3, 4] = some (1, 0) := by
  norm_num [linregress, mean, List.zip]

lemma linregress_1020 : linregress [10, 20] [1, 1] = some (0, 1) := by
  norm_num [linregress, mean, List.zip]

lemma pyMain_scenarioB :
    pyMain scenarioB =
      Outcome.exited
        [OutMsg.parsingStart, OutMsg.foundPoints 4, OutMsg.slopeMsg 1,
         OutMsg.interceptMsg 0, OutMsg.verdictGrowth, OutMsg.savedChart]
        0 true (some (2, 5)) := by
  rw [pyMain_eq scenarioB [1, 2, 3, 4] [1, 2, 3, 4] (by decide) (by decide), linregress_1234]
  have hm : pyMax [1, 2, 3, 4] = 4 := rfl
  norm_num [verdict_one, hm]

lemma pyMain_cexC5 :
    pyMain cexC5 =
      Outcome.exited
        [OutMsg.parsingStart, OutMsg.foundPoints 2, OutMsg.slopeMsg 0,
         OutMsg.interceptMsg 1, OutMsg.verdictStable, OutMsg.savedChart]
        0 true (some (1, 2)) := by
  rw [pyMain_eq cexC5 [10, 20] [1, 1] (by decide) (by decide), linregress_1020]
  have hm : pyMax [1, 1] = 1 := rfl
  norm_num [verdict_zero, hm]

/-! ### Claim theorems -/

/-- Claim C1: for every input file, `parse_data` returns exactly the integer
pairs parsed from the stripped lines matching `^\d+,\d+$`: `len(steps)`
equals the count of matching lines and equals `len(weights)`; non-matching
lines contribute nothing. -/
theorem C1_extraction_counts (lines : List (List Char)) :
    ∃ steps weights, parse_data lines = some (steps, weights) ∧
      steps.length = (lines.filter isMatch).length ∧
      weights.length = steps.length := by
  refine ⟨_, _, parse_data_eq lines, ?_, ?_⟩ <;> simp

/-- Claim C2: the verdict is `STABLE` iff `|slope| < 0.01` (strict); in
particular magnitude exactly `0.01` gives `GROWTH_DETECTED` and magnitude
`0.0099` gives `STABLE`. -/
theorem C2_verdict_threshold :
    (∀ s : ℚ, verdict s = Verdict.STABLE ↔ |s| < 1 / 100) ∧
    verdict (1 / 100) = Verdict.GROWTH_DETECTED ∧
    verdict (-(1 / 100)) = Verdict.GROWTH_DETECTED ∧
    verdict (99 / 10000) = Verdict.STABLE ∧
    verdict (-(99 / 10000)) = Verdict.STABLE := by
  refine ⟨fun s => ?_, ?_, ?_, ?_, ?_⟩
  · unfold verdict
    split
    · next h => exact iff_of_true rfl h
    · next h => exact iff_of_false (fun hh => Verdict.noConfusion hh) h
  · rw [verdict, if_neg]
    rw [abs_of_nonneg (by norm_num)]
    norm_num
  · rw [verdict, if_neg]
    rw [abs_neg, abs_of_nonneg (by norm_num)]
    norm_num
  · rw [verdict, if_pos]
    rw [abs_of_nonneg (by norm_num)]
    norm_num
  · rw [verdict, if_pos]
    rw [abs_neg, abs_of_nonneg (by norm_num)]
    norm_num

/-- Claim C3: with zero matching lines, `main` prints the parsing notice and
exactly the message "No CSV data found in raw_output.txt" and exits with
code 1, without running the regression or writing the image; moreover the
empty-series case is the only handled error path (every other normal exit
has code 0). -/
theorem C3_no_data_exit :
    (∀ content : List Char, (pyLines content).filter isMatch = [] →
      pyMain content = Outcome.exited [.parsingStart, .noData] 1 false none) ∧
    (∀ content out code cw lp,
      pyMain content = Outcome.exited out code cw lp →
      code = 0 ∨ (code = 1 ∧ out = [.parsingStart, .noData] ∧ cw = false ∧ lp = none)) ∧
    OutMsg.text .noData = "No CSV data found in raw_output.txt" := by
  refine ⟨?_, ?_, rfl⟩
  · intro content h
    rw [pyMain_eq content _ _ rfl rfl, h]
    simp
  · intro content out code cw lp h
    rw [pyMain_eq content _ _ rfl rfl] at h
    revert h
    generalize ((pyLines content).filter isMatch).map (fun l => (pairOf l).1) = S
    generalize ((pyLines content).filter isMatch).map (fun l => (pairOf l).2) = W
    intro h
    split at h
    · injection h with h1 h2 h3 h4
      exact Or.inr ⟨h2.symm, h1.symm, h3.symm, h4.symm⟩
    · cases hl : linregress S W with
      | none => rw [hl] at h; exact Outcome.noConfusion h
      | some p =>
        obtain ⟨m, b⟩ := p
        rw [hl] at h
        injection h with h1 h2 h3 h4
        exact Or.inl h2.symm

theorem C3_no_data_exit_witness :
    pyMain "hello\nworld\n-1,2\n1.5,3\n".data =
      Outcome.exited [.parsingStart, .noData] 1 false none :=
  C3_no_data_exit.1 "hello\nworld\n-1,2\n1.5,3\n".data (by decide)

/-- Claim C4 (amended): on every successful run `main` prints, in order, the
parsing-start notice, the count, the slope, the intercept, the verdict text,
and then the output file path (the source prints the verdict before the
saved-chart line). -/
theorem C4_print_order_amended :
    ∀ content out code cw lp,
      pyMain content = Outcome.exited out code cw lp → code = 0 →
      ∃ n m b v, (v = OutMsg.verdictStable ∨ v = OutMsg.verdictGrowth) ∧
        out = [OutMsg.parsingStart, OutMsg.foundPoints n, OutMsg.slopeMsg m,
          OutMsg.interceptMsg b, v, OutMsg.savedChart] := by
  intro content out code cw lp h hc
  rw [pyMain_eq content _ _ rfl rfl] at h
  revert h
  generalize ((pyLines content).filter isMatch).map (fun l => (pairOf l).1) = S
  generalize ((pyLines content).filter isMatch).map (fun l => (pairOf l).2) = W
  intro h
  split at h
  · injection h with h1 h2 h3 h4
    exact absurd (h2.trans hc) one_ne_zero
  · cases hl : linregress S W with
    | none => rw [hl] at h; exact Outcome.noConfusion h
    | some p =>
      obtain ⟨m, b⟩ := p
      rw [hl] at h
      injection h with h1 h2 h3 h4
      refine ⟨S.length, m, b,
        (match verdict m with
         | .STABLE => OutMsg.verdictStable
         | .GROWTH_DETECTED => OutMsg.verdictGrowth), ?_, h1.symm⟩
      cases verdict m
      · exact Or.inl rfl
      · exact Or.inr rfl

theorem C4_print_order_amended_witness :
    ∃ n m b v, (v = OutMsg.verdictStable ∨ v = OutMsg.verdictGrowth) ∧
      [OutMsg.parsingStart, OutMsg.foundPoints 4, OutMsg.slopeMsg 1,
       OutMsg.interceptMsg 0, OutMsg.verdictGrowth, OutMsg.savedChart] =
      [OutMsg.parsingStart, OutMsg.foundPoints n, OutMsg.slopeMsg m,
       OutMsg.interceptMsg b, v, OutMsg.savedChart] :=
  C4_print_order_amended scenarioB
    [OutMsg.parsingStart, OutMsg.foundPoints 4, OutMsg.slopeMsg 1,
     OutMsg.interceptMsg 0, OutMsg.verdictGrowth, OutMsg.savedChart]
    0 true (some (2, 5)) pyMain_scenarioB rfl

/-- Claim C4 is false as stated: on the successful scenario-B run the verdict
text is printed before the output file path, not after it. -/
theorem C4_print_order_counterexample :
    pyMain scenarioB =
      Outcome.exited
        [OutMsg.parsingStart, OutMsg.foundPoints 4, OutMsg.slopeMsg 1,
         OutMsg.interceptMsg 0, OutMsg.verdictGrowth, OutMsg.savedChart]
        0 true (some (2, 5)) ∧
    [OutMsg.parsingStart, OutMsg.foundPoints 4, OutMsg.slopeMsg 1,
     OutMsg.interceptMsg 0, OutMsg.verdictGrowth, OutMsg.savedChart] ≠
      [OutMsg.parsingStart, OutMsg.foundPoints 4, OutMsg.slopeMsg 1,
       OutMsg.interceptMsg 0, OutMsg.savedChart, OutMsg.verdictGrowth] :=
  ⟨pyMain_scenarioB, by simp⟩

/-- Claim C5 (amended): on every successful run the verdict label sits at
x = `len(steps)/2` (the point count halved, an index-based position, not the
midpoint of the step value range) and y = `max(weights) + 1`. -/
theorem C5_label_position_amended :
    ∀ content steps weights out code cw lp,
      parse_data (pyLines content) = some (steps, weights) →
      pyMain content = Outcome.exited out code cw lp → code = 0 →
      lp = some ((steps.length : ℚ) / 2, (pyMax weights : ℚ) + 1) := by
  intro content steps weights out code cw lp hp h hc
  rw [parse_data_eq] at hp
  injection hp with hp'
  injection hp' with h1 h2
  subst h1
  subst h2
  rw [pyMain_eq content _ _ rfl rfl] at h
  revert h
  generalize ((pyLines content).filter isMatch).map (fun l => (pairOf l).1) = S
  generalize ((pyLines content).filter isMatch).map (fun l => (pairOf l).2) = W
  intro h
  split at h
  · injection h with h1 h2 h3 h4
    exact absurd (h2.trans hc) one_ne_zero
  · cases hl : linregress S W with
    | none => rw [hl] at h; exact Outcome.noConfusion h
    | some p =>
      obtain ⟨m, b⟩ := p
      rw [hl] at h
      injection h with h1 h2 h3 h4
      exact h4.symm

theorem C5_label_position_amended_witness :
    (some ((2 : ℚ), (5 : ℚ)) : Option (ℚ × ℚ)) =
      some ((([1, 2, 3, 4] : List Nat).length : ℚ) / 2,
        ((pyMax [1, 2, 3, 4] : Nat) : ℚ) + 1) :=
  C5_label_position_amended scenarioB [1, 2, 3, 4] [1, 2, 3, 4]
    [OutMsg.parsingStart, OutMsg.foundPoints 4, OutMsg.slopeMsg 1,
     OutMsg.interceptMsg 0, OutMsg.verdictGrowth, OutMsg.savedChart]
    0 true (some (2, 5)) (by decide) pyMain_scenarioB rfl

/-- Claim C5 is false as stated: with steps 10 and 20 the label's x
coordinate is `len(steps)/2 = 1`, not the midpoint 15 of the step range. -/
theorem C5_label_position_counterexample :
    pyMain cexC5 =
      Outcome.exited
        [OutMsg.parsingStart, OutMsg.foundPoints 2, OutMsg.slopeMsg 0,
         OutMsg.interceptMsg 1, OutMsg.verdictStable, OutMsg.savedChart]
        0 true (some (1, 2)) ∧
    parse_data (pyLines cexC5) = some ([10, 20], [1, 1]) ∧
    specMidpoint [10, 20] = 15 ∧ (1 : ℚ) ≠ 15 := by
  refine ⟨pyMain_cexC5, by decide, ?_, by norm_num⟩
  have h1 : pyMin [10, 20] = 10 := rfl
  have h2 : pyMax [10, 20] = 20 := rfl
  rw [specMidpoint, h1, h2]
  norm_num

/-- Claim C6: an input with exactly one matching line passes the found-data
check (no no-data message, no exit 1), reaches the regression with a single
point, and the process crashes there rather than producing a verdict. -/
theorem C6_single_point_crash :
    ∀ content : List Char, ((pyLines content).filter isMatch).length = 1 →
      pyMain content = Outcome.crashed [OutMsg.parsingStart, OutMsg.foundPoints 1] := by
  intro content h
  have hlen : (((pyLines content).filter isMatch).map fun l => (pairOf l).1).length = 1 := by
    simpa using h
  rw [pyMain_eq content _ _ rfl rfl]
  revert hlen
  generalize ((pyLines content).filter isMatch).map (fun l => (pairOf l).1) = S
  generalize ((pyLines content).filter isMatch).map (fun l => (pairOf l).2) = W
  intro hlen
  cases S with
  | nil => exact absurd hlen (by simp)
  | cons a as =>
    rw [linregress_short (by rw [hlen]; decide)]
    rw [hlen]
    rfl

theorem C6_single_point_crash_witness :
    pyMain "3,4".data = Outcome.crashed [OutMsg.parsingStart, OutMsg.foundPoints 1] :=
  C6_single_point_crash "3,4".data (by decide)

/-- Claim C7: on the input file `"1,1\n2,2\n3,3\n4,4\n"` the extracted series
is `([1,2,3,4], [1,2,3,4])`, the fitted slope is exactly 1 and the intercept
exactly 0, the verdict is GROWTH_DETECTED, and the process exits with 0. -/
theorem C7_scenario_B :
    parse_data (pyLines scenarioB) = some ([1, 2, 3, 4], [1, 2, 3, 4]) ∧
    linregress [1, 2, 3, 4] [1, 2, 3, 4] = some (1, 0) ∧
    verdict 1 = Verdict.GROWTH_DETECTED ∧
    pyMain scenarioB =
      Outcome.exited
        [OutMsg.parsingStart, OutMsg.foundPoints 4, OutMsg.slopeMsg 1,
         OutMsg.interceptMsg 0, OutMsg.verdictGrowth, OutMsg.savedChart]
        0 true (some (2, 5)) :=
  ⟨by decide, linregress_1234, verdict_one, pyMain_scenarioB⟩

/-- Claim C8: `parse_data` preserves file order — the steps and weights are
exactly the first and second components of the matching lines' samples, in
the order those lines appear in the file. -/
theorem C8_order_preserved :
    ∀ lines steps weights, parse_data lines = some (steps, weights) →
      steps = (lines.filter isMatch).map (fun l => (pairOf l).1) ∧
      weights = (lines.filter isMatch).map (fun l => (pairOf l).2) := by
  intro lines steps weights h
  rw [parse_data_eq] at h
  injection h with h'
  injection h' with h1 h2
  exact ⟨h1.symm, h2.symm⟩

theorem C8_order_preserved_witness :
    ([1, 3] : List Nat) = (mixedLines.filter isMatch).map (fun l => (pairOf l).1) ∧
    ([2, 4] : List Nat) = (mixedLines.filter isMatch).map (fun l => (pairOf l).2) :=
  C8_order_preserved mixedLines [1, 3] [2, 4] (by decide)

/-- Claim C9: under the regex guard, splitting on the comma yields exactly
two non-empty digit-only parts (so both int conversions are defined), and
`parse_data` never raises on any input. -/
theorem C9_conversion_total :
    (∀ l : List Char, reMatch (pyStrip l) = true →
      ∃ a b, splitComma (pyStrip l) = [a, b] ∧ a ≠ [] ∧ a.all Char.isDigit = true ∧
        b ≠ [] ∧ b.all Char.isDigit = true) ∧
    ∀ lines, parse_data lines ≠ none := by
  constructor
  · intro l h
    exact reMatch_split h
  · intro lines
    rw [parse_data_eq]
    simp

theorem C9_conversion_total_witness :
    ∃ a b, splitComma (pyStrip "3,4".data) = [a, b] ∧ a ≠ [] ∧
      a.all Char.isDigit = true ∧ b ≠ [] ∧ b.all Char.isDigit = true :=
  C9_conversion_total.1 "3,4".data (by decide)

/-- Claim C10: whenever the non-empty check on steps passes, weights is also
non-empty, and `max(weights)` is attained in the list, so `max(weights) + 1`
is well-defined. -/
theorem C10_weights_nonempty :
    ∀ lines steps weights, parse_data lines = some (steps, weights) →
      steps ≠ [] → weights ≠ [] ∧ pyMax weights ∈ weights := by
  intro lines steps weights h hs
  rw [parse_data_eq] at h
  injection h with h'
  injection h' with h1 h2
  subst h1
  subst h2
  have hw : (lines.filter isMatch).map (fun l => (pairOf l).2) ≠ [] := by
    intro hnil
    apply hs
    have hfil : lines.filter isMatch = [] := by simpa using hnil
    simp [hfil]
  exact ⟨hw, pyMax_mem hw⟩

theorem C10_weights_nonempty_witness :
    ([2] : List Nat) ≠ [] ∧ pyMax [2] ∈ [2] :=
  C10_weights_nonempty ["1,2".data] [1] [2] (by decide) (by decide)
